import Mathlib

/-!
Verification of the Smart QR HRMS frontend (`app.py`) against its
natural-language specification.

The program is a single Streamlit script.  We embed it shallowly:

* Python strings that carry URL/token data are modelled as their byte
  sequences, `List Nat` with every element `< 256` (for ASCII literals the
  byte list coincides with the code-point list, see `strBytes`).
* `st.session_state` is the record `SessionState`, initialised from the
  `DEFAULTS` dict of the source.
* Each button handler / view body of the script becomes a function from the
  session state (plus the results of the HTTP calls it makes, modelled by
  `ApiResult`) to the new session state paired with the trace of observable
  UI elements and network requests it emits (`Ev`).
* `urllib.parse.urlencode` with its default `quote_via=quote_plus` is
  embedded byte-for-byte (`quotePlusB`), and the reverse direction used by
  the round-trip property (`urllib.parse.parse_qsl`) is `parseQSL`.
-/

/-- Code points of a Lean string literal; for ASCII literals these are
exactly the UTF-8 bytes of the corresponding Python string. -/
def strBytes (s : String) : List Nat := s.data.map Char.toNat

/-- Python `ALWAYS_SAFE` bytes for `urllib.parse.quote` with `safe=''`:
ASCII letters, digits, and `_ . - ~`.  These are emitted unescaped. -/
def isSafeByte (b : Nat) : Bool :=
  (48 ≤ b && b ≤ 57) || (65 ≤ b && b ≤ 90) || (97 ≤ b && b ≤ 122) ||
    b == 95 || b == 46 || b == 45 || b == 126

/-- Uppercase hexadecimal digit character code for a value `< 16`,
as produced by Python's percent-escaping. -/
def hexDig (n : Nat) : Nat := if n < 10 then 48 + n else 55 + n

/-- Encoding of one byte by `urllib.parse.quote_plus`: a space (32) becomes
`+` (43), a safe byte stands for itself, anything else becomes `%XX`. -/
def encByte (b : Nat) : List Nat :=
  if b = 32 then [43]
  else if isSafeByte b then [b]
  else [37, hexDig (b / 16), hexDig (b % 16)]

/-- `urllib.parse.quote_plus` on a byte string. -/
def quotePlusB (bs : List Nat) : List Nat := (bs.map encByte).flatten

/-- Value of an ASCII character code as a hexadecimal digit, if it is one
(both cases accepted, as `urllib.parse.unquote` does). -/
def hexVal (c : Nat) : Option Nat :=
  if 48 ≤ c ∧ c ≤ 57 then some (c - 48)
  else if 65 ≤ c ∧ c ≤ 70 then some (c - 55)
  else if 97 ≤ c ∧ c ≤ 102 then some (c - 87)
  else none

/-- `urllib.parse.unquote_plus` on a byte string: `+` decodes to a space,
`%XX` with two hexadecimal digits decodes to the byte `XX`, an invalid or
truncated escape is kept literally, anything else stands for itself. -/
def unquotePlusB : List Nat → List Nat
  | [] => []
  | c :: rest =>
    if c = 43 then 32 :: unquotePlusB rest
    else if c = 37 then
      match rest with
      | h :: l :: rest2 =>
        match hexVal h, hexVal l with
        | some a, some b => (16 * a + b) :: unquotePlusB rest2
        | _, _ => 37 :: unquotePlusB (h :: l :: rest2)
      | short => 37 :: unquotePlusB short
    else c :: unquotePlusB rest
termination_by l => l.length
decreasing_by all_goals simp <;> omega

theorem unquotePlusB_nil : unquotePlusB [] = [] := by
  unfold unquotePlusB
  rfl

theorem unquotePlusB_plus (rest : List Nat) :
    unquotePlusB (43 :: rest) = 32 :: unquotePlusB rest := by
  unfold unquotePlusB
  rw [if_pos rfl, ← unquotePlusB.eq_def]

theorem unquotePlusB_other (c : Nat) (rest : List Nat) (h1 : c ≠ 43)
    (h2 : c ≠ 37) : unquotePlusB (c :: rest) = c :: unquotePlusB rest := by
  unfold unquotePlusB
  rw [if_neg h1, if_neg h2, ← unquotePlusB.eq_def]

theorem unquotePlusB_escape_valid (h l : Nat) (rest : List Nat) (a b : Nat)
    (ha : hexVal h = some a) (hb : hexVal l = some b) :
    unquotePlusB (37 :: h :: l :: rest) = (16 * a + b) :: unquotePlusB rest := by
  unfold unquotePlusB
  rw [if_neg (by omega), if_pos rfl]
  simp only [ha, hb]
  rw [← unquotePlusB.eq_def]

/-- Decimal digit characters of a natural number, as Python `str(int)`
produces them (most significant first, `0` printed as `"0"`). -/
def natDigits (n : Nat) : List Nat :=
  if h : n < 10 then [48 + n]
  else natDigits (n / 10) ++ [48 + n % 10]
decreasing_by
  exact Nat.div_lt_self (by omega) (by omega)

/-- Numeric value of a decimal digit string (used to read the parsed
`company_id` back as a number). -/
def decimalVal (l : List Nat) : Nat := l.foldl (fun a d => 10 * a + (d - 48)) 0

/-- Python `urlencode({"company_id": cid, "qr_token": tok})` with the default
`quote_via=quote_plus`: pairs joined by `&` (38), key and value joined by
`=` (61), keys and values percent-encoded, the integer passed through
`str`. -/
def urlencodeParams (cid : Nat) (tok : List Nat) : List Nat :=
  quotePlusB (strBytes "company_id") ++ 61 :: quotePlusB (natDigits cid)
    ++ 38 :: (quotePlusB (strBytes "qr_token") ++ 61 :: quotePlusB tok)

/-- Python `s.rstrip("/")`: remove every trailing `/` (47). -/
def rstripSlash (s : List Nat) : List Nat :=
  (s.reverse.dropWhile fun c => c == 47).reverse

/-- Deep-link composition of the QR_DISPLAY view (app.py lines 518-520):
`frontend = base.rstrip("/") if base else ""` followed by
`f"{frontend}/?{urlencode(params)}" if frontend else f"/?{urlencode(params)}"`. -/
def deepLinkQr (base : List Nat) (cid : Nat) (tok : List Nat) : List Nat :=
  let frontend := if base = [] then [] else rstripSlash base
  if frontend = [] then 47 :: 63 :: urlencodeParams cid tok
  else frontend ++ 47 :: 63 :: urlencodeParams cid tok

/-- Deep-link composition of the HR QR tab (app.py line 307):
`f"{base.rstrip('/')}/?{q}" if base else f"/?{q}"`. -/
def deepLinkHr (base : List Nat) (cid : Nat) (tok : List Nat) : List Nat :=
  if base = [] then 47 :: 63 :: urlencodeParams cid tok
  else rstripSlash base ++ 47 :: 63 :: urlencodeParams cid tok

/-- Query string of a composed URL: everything after the first `?` (63). -/
def queryOf (url : List Nat) : List Nat :=
  (url.dropWhile fun c => c != 63).drop 1

/-- Split a query string on `&` (38), as `urllib.parse.parse_qsl` does. -/
def splitAmp : List Nat → List (List Nat)
  | [] => [[]]
  | c :: rest =>
    if c = 38 then [] :: splitAmp rest
    else
      match splitAmp rest with
      | g :: gs => (c :: g) :: gs
      | [] => [[c]]

/-- Split a `name=value` pair at its first `=` (61), `none` if there is no
`=` (such pairs are skipped by `urllib.parse.parse_qsl`). -/
def splitEqFirst : List Nat → Option (List Nat × List Nat)
  | [] => none
  | c :: rest =>
    if c = 61 then some ([], rest)
    else
      match splitEqFirst rest with
      | some (k, v) => some (c :: k, v)
      | none => none

/-- `urllib.parse.parse_qsl` on a query byte string: split on `&`, split
each pair at the first `=`, percent-decode name and value. -/
def parseQSL (qs : List Nat) : List (List Nat × List Nat) :=
  (splitAmp qs).filterMap fun p =>
    (splitEqFirst p).map fun kv => (unquotePlusB kv.1, unquotePlusB kv.2)

-- ---------------------------------------------------------------------------
-- Basic lemmas about the encoding layer
-- ---------------------------------------------------------------------------

theorem quotePlusB_nil : quotePlusB [] = [] := rfl

theorem quotePlusB_cons (b : Nat) (bs : List Nat) :
    quotePlusB (b :: bs) = encByte b ++ quotePlusB bs := by
  simp [quotePlusB]

theorem isSafeByte_ne (b : Nat) (h : isSafeByte b = true) :
    b ≠ 32 ∧ b ≠ 43 ∧ b ≠ 37 ∧ b ≠ 38 ∧ b ≠ 61 ∧ b ≠ 63 ∧ b < 256 := by
  simp only [isSafeByte, Bool.or_eq_true, Bool.and_eq_true, decide_eq_true_eq,
    beq_iff_eq] at h
  omega

theorem hexVal_hexDig (d : Nat) (h : d < 16) : hexVal (hexDig d) = some d := by
  interval_cases d <;> decide

theorem hexDig_range (d : Nat) (h : d < 16) :
    (48 ≤ hexDig d ∧ hexDig d ≤ 57) ∨ (65 ≤ hexDig d ∧ hexDig d ≤ 70) := by
  interval_cases d <;> decide

theorem unquotePlusB_encByte (b : Nat) (hb : b < 256) (rest : List Nat) :
    unquotePlusB (encByte b ++ rest) = b :: unquotePlusB rest := by
  by_cases h32 : b = 32
  · subst h32
    rw [show encByte 32 = [43] from rfl, List.cons_append, List.nil_append,
      unquotePlusB_plus]
  · by_cases hsafe : isSafeByte b = true
    · have hne := isSafeByte_ne b hsafe
      rw [show encByte b = [b] by simp [encByte, h32, hsafe],
        List.cons_append, List.nil_append,
        unquotePlusB_other b rest hne.2.1 hne.2.2.1]
    · rw [show encByte b = [37, hexDig (b / 16), hexDig (b % 16)] by
        simp [encByte, h32, hsafe]]
      simp only [List.cons_append, List.nil_append]
      rw [unquotePlusB_escape_valid _ _ _ _ _ (hexVal_hexDig _ (by omega))
        (hexVal_hexDig _ (by omega))]
      have hdm : 16 * (b / 16) + b % 16 = b := by omega
      rw [hdm]

theorem unquotePlusB_quotePlusB (bs : List Nat) (h : ∀ b ∈ bs, b < 256)
    (rest : List Nat) :
    unquotePlusB (quotePlusB bs ++ rest) = bs ++ unquotePlusB rest := by
  induction bs with
  | nil => simp [quotePlusB_nil]
  | cons b bs ih =>
    rw [quotePlusB_cons, List.append_assoc,
      unquotePlusB_encByte b (h b (by simp)) _,
      ih (fun x hx => h x (by simp [hx])), List.cons_append]

theorem unquotePlusB_id (l : List Nat) (h : ∀ c ∈ l, c ≠ 43 ∧ c ≠ 37) :
    unquotePlusB l = l := by
  induction l with
  | nil => exact unquotePlusB_nil
  | cons c rest ih =>
    have hc := h c (by simp)
    rw [unquotePlusB_other c rest hc.1 hc.2,
      ih (fun x hx => h x (by simp [hx]))]

theorem encByte_no_sep (b : Nat) (hb : b < 256) :
    ∀ c ∈ encByte b, c ≠ 38 ∧ c ≠ 61 ∧ c ≠ 63 := by
  intro c hc
  by_cases h32 : b = 32
  · subst h32; simp [encByte] at hc; omega
  · by_cases hsafe : isSafeByte b = true
    · simp [encByte, h32, hsafe] at hc
      have := isSafeByte_ne b hsafe
      omega
    · simp [encByte, h32, hsafe] at hc
      have h1 := hexDig_range (b / 16) (by omega)
      have h2 := hexDig_range (b % 16) (by omega)
      rcases hc with rfl | rfl | rfl <;> omega

theorem quotePlusB_no_sep (bs : List Nat) (h : ∀ b ∈ bs, b < 256) :
    ∀ c ∈ quotePlusB bs, c ≠ 38 ∧ c ≠ 61 ∧ c ≠ 63 := by
  induction bs with
  | nil => simp [quotePlusB_nil]
  | cons b bs ih =>
    intro c hc
    rw [quotePlusB_cons] at hc
    rcases List.mem_append.mp hc with hc | hc
    · exact encByte_no_sep b (h b (by simp)) c hc
    · exact ih (fun x hx => h x (by simp [hx])) c hc

theorem natDigits_range (n : Nat) : ∀ d ∈ natDigits n, 48 ≤ d ∧ d ≤ 57 := by
  induction n using Nat.strong_induction_on with
  | _ n ih =>
    intro d hd
    rw [natDigits] at hd
    by_cases h : n < 10
    · simp [h] at hd; omega
    · simp only [dif_neg h, List.mem_append, List.mem_singleton] at hd
      rcases hd with hd | rfl
      · exact ih (n / 10) (Nat.div_lt_self (by omega) (by omega)) d hd
      · omega

theorem decimalVal_append (l : List Nat) (d : Nat) :
    decimalVal (l ++ [d]) = 10 * decimalVal l + (d - 48) := by
  simp [decimalVal, List.foldl_append]

theorem decimalVal_natDigits (n : Nat) : decimalVal (natDigits n) = n := by
  induction n using Nat.strong_induction_on with
  | _ n ih =>
    rw [natDigits]
    by_cases h : n < 10
    · rw [dif_pos h]
      simp [decimalVal]
    · rw [dif_neg h, decimalVal_append,
        ih (n / 10) (Nat.div_lt_self (by omega) (by omega))]
      omega

theorem quotePlusB_digits (n : Nat) : quotePlusB (natDigits n) = natDigits n := by
  have h : ∀ l : List Nat, (∀ d ∈ l, 48 ≤ d ∧ d ≤ 57) → quotePlusB l = l := by
    intro l hl
    induction l with
    | nil => rfl
    | cons d l ihl =>
      have hd := hl d (by simp)
      rw [quotePlusB_cons, ihl (fun x hx => hl x (by simp [hx]))]
      have hsafe : isSafeByte d = true := by
        simp only [isSafeByte, Bool.or_eq_true, Bool.and_eq_true,
          decide_eq_true_eq, beq_iff_eq]
        omega
      have h32 : d ≠ 32 := by omega
      simp [encByte, h32, hsafe]
  exact h _ (natDigits_range n)

theorem unquotePlusB_quotePlusB_nil (bs : List Nat) (h : ∀ b ∈ bs, b < 256) :
    unquotePlusB (quotePlusB bs) = bs := by
  have hx := unquotePlusB_quotePlusB bs h []
  simpa [unquotePlusB_nil] using hx

theorem mem_dropWhile (p : Nat → Bool) (l : List Nat) :
    ∀ c ∈ l.dropWhile p, c ∈ l := by
  induction l with
  | nil => simp
  | cons a l ih =>
    intro c hc
    rw [List.dropWhile_cons] at hc
    by_cases hp : p a = true
    · simp only [hp, if_true] at hc
      exact List.mem_cons_of_mem a (ih c hc)
    · simp only [hp] at hc
      simpa using hc

theorem rstripSlash_subset (b : List Nat) : ∀ c ∈ rstripSlash b, c ∈ b := by
  intro c hc
  simp only [rstripSlash, List.mem_reverse] at hc
  have := mem_dropWhile _ _ c hc
  simpa [List.mem_reverse] using this

theorem dropWhile47_replicate (k : Nat) (l : List Nat) :
    (List.replicate k 47 ++ l).dropWhile (fun c => c == 47) =
      l.dropWhile fun c => c == 47 := by
  induction k with
  | zero => simp
  | succ k ih => simp [List.replicate_succ, List.dropWhile_cons, ih]

theorem rstripSlash_append_slashes (b : List Nat) (k : Nat) :
    rstripSlash (b ++ List.replicate k 47) = rstripSlash b := by
  simp [rstripSlash, List.reverse_append, dropWhile47_replicate]

theorem splitAmp_ne_nil (l : List Nat) : splitAmp l ≠ [] := by
  induction l with
  | nil => simp [splitAmp]
  | cons c rest ih =>
    simp only [splitAmp]
    by_cases h : c = 38
    · simp [h]
    · rw [if_neg h]
      cases hs : splitAmp rest with
      | nil => simp
      | cons g gs => simp

theorem splitAmp_no (l : List Nat) (h : ∀ c ∈ l, c ≠ 38) :
    splitAmp l = [l] := by
  induction l with
  | nil => rfl
  | cons c rest ih =>
    simp only [splitAmp]
    rw [if_neg (h c (by simp)), ih (fun x hx => h x (by simp [hx]))]

theorem splitAmp_append (A B : List Nat) (h : ∀ c ∈ A, c ≠ 38) :
    splitAmp (A ++ 38 :: B) = A :: splitAmp B := by
  induction A with
  | nil => simp [splitAmp]
  | cons c A ih =>
    simp only [List.cons_append, splitAmp, List.append_eq]
    rw [if_neg (h c (by simp)), ih (fun x hx => h x (by simp [hx]))]

theorem splitEqFirst_append (K V : List Nat) (h : ∀ c ∈ K, c ≠ 61) :
    splitEqFirst (K ++ 61 :: V) = some (K, V) := by
  induction K with
  | nil => simp [splitEqFirst]
  | cons c K ih =>
    simp only [List.cons_append, splitEqFirst, List.append_eq]
    rw [if_neg (h c (by simp)), ih (fun x hx => h x (by simp [hx]))]

theorem dropWhile_until63 (A B : List Nat) (h : ∀ c ∈ A, c ≠ 63) :
    (A ++ 63 :: B).dropWhile (fun c => c != 63) = 63 :: B := by
  induction A with
  | nil => simp [List.dropWhile_cons]
  | cons c A ih =>
    have hc : (c != 63) = true := by
      simpa using h c (by simp)
    simp only [List.cons_append, List.dropWhile_cons, hc, if_true]
    exact ih fun x hx => h x (by simp [hx])

theorem queryOf_append (A B : List Nat) (h : ∀ c ∈ A, c ≠ 63) :
    queryOf (A ++ 63 :: B) = B := by
  simp [queryOf, dropWhile_until63 A B h]

theorem strBytes_company_id_facts :
    ∀ c ∈ strBytes "company_id", c ≠ 38 ∧ c ≠ 61 ∧ c ≠ 43 ∧ c ≠ 37 := by
  decide

theorem strBytes_qr_token_facts :
    ∀ c ∈ strBytes "qr_token", c ≠ 38 ∧ c ≠ 61 ∧ c ≠ 43 ∧ c ≠ 37 := by
  decide

theorem natDigits_facts (n : Nat) :
    ∀ d ∈ natDigits n, d ≠ 38 ∧ d ≠ 61 ∧ d ≠ 43 ∧ d ≠ 37 := by
  intro d hd
  have := natDigits_range n d hd
  omega

theorem quotePlusB_key_company :
    quotePlusB (strBytes "company_id") = strBytes "company_id" := by decide

theorem quotePlusB_key_qr :
    quotePlusB (strBytes "qr_token") = strBytes "qr_token" := by decide

theorem urlencodeParams_eq (cid : Nat) (tok : List Nat) :
    urlencodeParams cid tok =
      (strBytes "company_id" ++ 61 :: natDigits cid) ++
        38 :: (strBytes "qr_token" ++ 61 :: quotePlusB tok) := by
  simp [urlencodeParams, quotePlusB_key_company, quotePlusB_key_qr,
    quotePlusB_digits, List.append_assoc]

theorem parseQSL_urlencodeParams (cid : Nat) (tok : List Nat)
    (h : ∀ b ∈ tok, b < 256) :
    parseQSL (urlencodeParams cid tok) =
      [(strBytes "company_id", natDigits cid), (strBytes "qr_token", tok)] := by
  have h38A : ∀ c ∈ strBytes "company_id" ++ 61 :: natDigits cid, c ≠ 38 := by
    intro c hc
    rcases List.mem_append.mp hc with hc | hc
    · exact (strBytes_company_id_facts c hc).1
    · rcases List.mem_cons.mp hc with rfl | hc
      · omega
      · exact (natDigits_facts cid c hc).1
  have h38B : ∀ c ∈ strBytes "qr_token" ++ 61 :: quotePlusB tok, c ≠ 38 := by
    intro c hc
    rcases List.mem_append.mp hc with hc | hc
    · exact (strBytes_qr_token_facts c hc).1
    · rcases List.mem_cons.mp hc with rfl | hc
      · omega
      · exact (quotePlusB_no_sep tok h c hc).1
  unfold parseQSL
  rw [urlencodeParams_eq, splitAmp_append _ _ h38A, splitAmp_no _ h38B,
    List.filterMap_cons, List.filterMap_cons, List.filterMap_nil,
    splitEqFirst_append _ _ (fun c hc => (strBytes_company_id_facts c hc).2.1),
    splitEqFirst_append _ _ (fun c hc => (strBytes_qr_token_facts c hc).2.1)]
  simp only [Option.map_some']
  rw [unquotePlusB_id _ (fun c hc => ⟨(strBytes_company_id_facts c hc).2.2.1,
      (strBytes_company_id_facts c hc).2.2.2⟩),
    unquotePlusB_id _ (fun c hc => ⟨(natDigits_facts cid c hc).2.2.1,
      (natDigits_facts cid c hc).2.2.2⟩),
    unquotePlusB_id _ (fun c hc => ⟨(strBytes_qr_token_facts c hc).2.2.1,
      (strBytes_qr_token_facts c hc).2.2.2⟩),
    unquotePlusB_quotePlusB_nil tok h]

theorem queryOf_deepLinkQr (base : List Nat) (cid : Nat) (tok : List Nat)
    (hb : ∀ c ∈ base, c ≠ 63) :
    queryOf (deepLinkQr base cid tok) = urlencodeParams cid tok := by
  have h47 : ∀ c ∈ ([47] : List Nat), c ≠ 63 := by
    intro c hc
    simp at hc
    omega
  unfold deepLinkQr
  by_cases h0 : base = []
  · simp only [h0, if_pos rfl]
    exact queryOf_append [47] _ h47
  · simp only [if_neg h0]
    by_cases h1 : rstripSlash base = []
    · simp only [h1, if_pos rfl]
      exact queryOf_append [47] _ h47
    · simp only [if_neg h1]
      have hshape : rstripSlash base ++ 47 :: 63 :: urlencodeParams cid tok =
          (rstripSlash base ++ [47]) ++ 63 :: urlencodeParams cid tok := by
        simp
      rw [hshape]
      refine queryOf_append _ _ ?_
      intro c hc
      rcases List.mem_append.mp hc with hc | hc
      · exact hb c (rstripSlash_subset base c hc)
      · simp at hc
        omega

-- ---------------------------------------------------------------------------
-- Session state, API results and observable events
-- ---------------------------------------------------------------------------

/-- Cached company record fields the client uses. -/
structure CompanyData where
  id : Nat
  name : String
deriving DecidableEq

/-- Body of a successful auth response (`access_token` field). -/
structure AuthData where
  access_token : String
deriving DecidableEq

/-- Body of `GET /qr/(company_id)/current`. -/
structure QrCurrentData where
  token : List Nat
  token_date : String
deriving DecidableEq

/-- Body of `GET /qr/(company_id)/version`. -/
structure QrVersionData where
  token : List Nat
  token_date : String
  updated_at : String
deriving DecidableEq

/-- Result of `api_get`/`api_post` (app.py lines 28-42) combined with
`response_json_or_text` (lines 44-51): `noResp` models the `None` returned
when `requests` raised an exception; `resp status body` models a response
with the given HTTP status whose body parsed as the expected JSON record
(`some`) or was malformed (`none`). -/
inductive ApiResult (α : Type) where
  | noResp
  | resp (status : Nat) (body : Option α)
deriving DecidableEq

/-- The guard `res and res.status_code == 200 and ok` of the views: a
response arrived, its status is 200 and its body parsed.  (A `requests`
response object is falsy for status ≥ 400, but the `status_code == 200`
conjunct makes the net condition the same.) -/
def isFetchSuccess {α : Type} : ApiResult α → Bool
  | .noResp => false
  | .resp status body => status == 200 && body.isSome

/-- The `st.session_state` fields of app.py (`DEFAULTS`, lines 68-76);
token values are byte strings. -/
structure SessionState where
  ui_view : String
  hr_authtab : String
  hr_token : Option String
  hr_email : Option String
  hr_company : Option CompanyData
  qr_last_token : Option (List Nat)
  frontend_base_url : List Nat
deriving DecidableEq

/-- The `DEFAULTS` dict (app.py lines 68-76): view `HOME`, everything else
empty; in particular `qr_last_token = None` (the IDLE state) and an empty
frontend base URL. -/
def DEFAULTS : SessionState :=
  { ui_view := "HOME", hr_authtab := "LOGIN", hr_token := none,
    hr_email := none, hr_company := none, qr_last_token := none,
    frontend_base_url := [] }

/-- Observable events of one script run: the network requests issued and
the UI elements rendered, in program order.  `image` is a
`qrcode.make`/`st.image` pair, `dataOut` a `st.json`/`st.dataframe` render,
`stopEv` a `st.stop()`. -/
inductive Ev where
  | getReq (endpoint : String)
  | postReq (endpoint : String)
  | image (link : List Nat) (capt : String)
  | codeBlock (link : List Nat)
  | markdown (link : List Nat)
  | capt (text : String)
  | okMsg (text : String)
  | errMsg
  | warnMsg (text : String)
  | dataOut
  | banner (cidChar tokChar : Nat)
  | credForm
  | stopEv
deriving DecidableEq

/-- Number of QR images rendered in a trace. -/
def countImages (evs : List Ev) : Nat :=
  (evs.filter fun e => match e with | .image _ _ => true | _ => false).length

/-- Number of GET requests issued in a trace. -/
def countGets (evs : List Ev) : Nat :=
  (evs.filter fun e => match e with | .getReq _ => true | _ => false).length

-- ---------------------------------------------------------------------------
-- View and handler bodies
-- ---------------------------------------------------------------------------

/-- QR_DISPLAY view body (app.py lines 488-533) as a function of the session
state, the company id entered in the widget, and the result of
`GET /qr/(company_id)/version`.  The code computes
`changed = token != st.session_state.get("qr_last_token")` and stores the
token when `changed`, but `qrcode.make`/`st.image`/`st.markdown` sit outside
the `if changed:` block (lines 527-530), so they run on every successful
fetch.  On a non-success the only element is `st.error`. -/
def qrDisplayView (st : SessionState) (cid : Nat)
    (r : ApiResult QrVersionData) : SessionState × List Ev :=
  let fetchEv := Ev.getReq ("/qr/" ++ toString cid ++ "/version")
  match r with
  | .resp status (some d) =>
    if status = 200 then
      let deep := deepLinkQr st.frontend_base_url cid d.token
      let st1 := if some d.token ≠ st.qr_last_token then
          { st with qr_last_token := some d.token } else st
      (st1, [fetchEv, .image deep ("Token Date: " ++ d.token_date),
             .markdown deep, .capt ("Last backend update: " ++ d.updated_at)])
    else (st, [fetchEv, .errMsg])
  | _ => (st, [fetchEv, .errMsg])

/-- Repeated QR_DISPLAY reruns (the 30-second `st_autorefresh` ticks):
thread the session state through a list of fetch results, concatenating the
emitted traces. -/
def runQrSeq (st : SessionState) (cid : Nat) :
    List (ApiResult QrVersionData) → SessionState × List Ev
  | [] => (st, [])
  | r :: rs =>
    let p1 := qrDisplayView st cid r
    let p2 := runQrSeq p1.1 cid rs
    (p2.1, p1.2 ++ p2.2)

/-- Modelled from the spec: the number of image renders the claim demands
for a sequence of successfully fetched token values — exactly one per token
value that differs from the previous one, starting from a given last-seen
value (`none` initially). -/
def specDistinctConsecutive (last : Option (List Nat)) :
    List (List Nat) → Nat
  | [] => 0
  | t :: ts =>
    (if some t ≠ last then 1 else 0) + specDistinctConsecutive (some t) ts

/-- The HR QR tab "Fetch Current QR" button handler (app.py lines 300-313),
given the company id previously obtained from `/company/me` and the result
of `GET /qr/(company_id)/current`.  On success it executes
`st.session_state["qr_last_token"] = token` (line 305) and renders the QR
image and the deep link. -/
def hrFetchCurrentQr (st : SessionState) (cid : Nat)
    (r : ApiResult QrCurrentData) : SessionState × List Ev :=
  let fetchEv := Ev.getReq ("/qr/" ++ toString cid ++ "/current")
  match r with
  | .resp status (some d) =>
    if status = 200 then
      let deep := deepLinkHr st.frontend_base_url cid d.token
      ({ st with qr_last_token := some d.token },
       [fetchEv, .image deep ("Current Token Date: " ++ d.token_date),
        .codeBlock deep])
    else (st, [fetchEv, .errMsg])
  | _ => (st, [fetchEv, .errMsg])

/-- The HR QR tab "Regenerate QR Now" button handler (app.py lines 315-322):
it posts `/qr/regenerate` and reports the outcome; nothing else. -/
def hrRegenerate (st : SessionState) (r : ApiResult Unit) :
    SessionState × List Ev :=
  match r with
  | .resp status (some _) =>
    if status = 200 then
      (st, [.postReq "/qr/regenerate", .okMsg "✅ QR regenerated."])
    else (st, [.postReq "/qr/regenerate", .errMsg])
  | _ => (st, [.postReq "/qr/regenerate", .errMsg])

/-- HR register button handler (app.py lines 141-151): on status 200/201
with a parsed body, store the JWT and email and switch to the dashboard. -/
def hrRegister (st : SessionState) (email : String) (r : ApiResult AuthData) :
    SessionState × List Ev :=
  match r with
  | .resp status (some d) =>
    if status = 200 ∨ status = 201 then
      ({ st with hr_token := some d.access_token, hr_email := some email,
                 ui_view := "HR_DASH" },
       [.postReq "/auth/hr/register", .okMsg "✅ Registered successfully."])
    else (st, [.postReq "/auth/hr/register", .errMsg])
  | _ => (st, [.postReq "/auth/hr/register", .errMsg])

/-- HR login button handler (app.py lines 157-167). -/
def hrLogin (st : SessionState) (email : String) (r : ApiResult AuthData) :
    SessionState × List Ev :=
  match r with
  | .resp status (some d) =>
    if status = 200 then
      ({ st with hr_token := some d.access_token, hr_email := some email,
                 ui_view := "HR_DASH" },
       [.postReq "/auth/hr/login", .okMsg "✅ Logged in."])
    else (st, [.postReq "/auth/hr/login", .errMsg])
  | _ => (st, [.postReq "/auth/hr/login", .errMsg])

/-- HR logout button handler (app.py lines 183-188): clears the auth
fields and returns to the auth view. -/
def hrLogout (st : SessionState) : SessionState × List Ev :=
  ({ st with hr_token := none, hr_email := none, hr_company := none,
             ui_view := "HR_AUTH" }, [])

/-- Create Company button handler (app.py lines 207-216). -/
def hrCreateCompany (st : SessionState) (r : ApiResult CompanyData) :
    SessionState × List Ev :=
  match r with
  | .resp status (some d) =>
    if status = 200 ∨ status = 201 then
      ({ st with hr_company := some d },
       [.postReq "/company/create", .okMsg "✅ Company created."])
    else (st, [.postReq "/company/create", .errMsg])
  | _ => (st, [.postReq "/company/create", .errMsg])

/-- View My Company button handler (app.py lines 220-227). -/
def hrViewCompany (st : SessionState) (r : ApiResult CompanyData) :
    SessionState × List Ev :=
  match r with
  | .resp status (some d) =>
    if status = 200 then
      ({ st with hr_company := some d }, [.getReq "/company/me", .dataOut])
    else (st, [.getReq "/company/me", .errMsg])
  | _ => (st, [.getReq "/company/me", .errMsg])

/-- Create Employee button handler (app.py lines 242-255): first checks
`/company/me`, then posts `/employees/create`.  No session-state writes. -/
def hrCreateEmployee (st : SessionState) (rc : ApiResult CompanyData)
    (re : ApiResult Unit) : SessionState × List Ev :=
  match rc with
  | .resp cs (some _) =>
    if cs = 200 then
      match re with
      | .resp s (some _) =>
        if s = 200 ∨ s = 201 then
          (st, [.getReq "/company/me", .postReq "/employees/create",
                .okMsg "✅ Employee created."])
        else (st, [.getReq "/company/me", .postReq "/employees/create", .errMsg])
      | _ => (st, [.getReq "/company/me", .postReq "/employees/create", .errMsg])
    else (st, [.getReq "/company/me", .errMsg])
  | _ => (st, [.getReq "/company/me", .errMsg])

/-- Upload Excel button handler (app.py lines 260-267). -/
def hrUploadExcel (st : SessionState) (r : ApiResult Unit) :
    SessionState × List Ev :=
  match r with
  | .resp status (some _) =>
    if status = 200 then
      (st, [.postReq "/employees/upload_excel", .okMsg "✅ Uploaded."])
    else (st, [.postReq "/employees/upload_excel", .errMsg])
  | _ => (st, [.postReq "/employees/upload_excel", .errMsg])

/-- List Employees button handler (app.py lines 270-279). -/
def hrListEmployees (st : SessionState) (r : ApiResult Unit) :
    SessionState × List Ev :=
  match r with
  | .resp status (some _) =>
    if status = 200 then (st, [.getReq "/employees/list", .dataOut])
    else (st, [.getReq "/employees/list", .errMsg])
  | _ => (st, [.getReq "/employees/list", .errMsg])

/-- Submit Decision handler of the Leaves tab (app.py lines 347-354). -/
def hrLeaveDecide (st : SessionState) (r : ApiResult Unit) :
    SessionState × List Ev :=
  match r with
  | .resp status (some _) =>
    if status = 200 then
      (st, [.postReq "/leave/decide", .okMsg "✅ Decision saved."])
    else (st, [.postReq "/leave/decide", .errMsg])
  | _ => (st, [.postReq "/leave/decide", .errMsg])

/-- Refresh Today handler of the Reports tab (app.py lines 361-367). -/
def hrMonitorRefresh (st : SessionState) (r : ApiResult Unit) :
    SessionState × List Ev :=
  match r with
  | .resp status (some _) =>
    if status = 200 then (st, [.getReq "/monitor", .dataOut])
    else (st, [.getReq "/monitor", .errMsg])
  | _ => (st, [.getReq "/monitor", .errMsg])

/-- Generate Report handler (app.py lines 380-401). -/
def hrGenerateReport (st : SessionState) (r : ApiResult Unit) :
    SessionState × List Ev :=
  match r with
  | .resp status (some _) =>
    if status = 200 then (st, [.postReq "/reports/attendance", .dataOut])
    else (st, [.postReq "/reports/attendance", .errMsg])
  | _ => (st, [.postReq "/reports/attendance", .errMsg])

/-- Employee Check In button handler (app.py lines 427-442). -/
def employeeCheckin (st : SessionState) (r : ApiResult Unit) :
    SessionState × List Ev :=
  match r with
  | .resp status (some _) =>
    if status = 200 then
      (st, [.postReq "/attendance/checkin", .okMsg "✅ Check-In recorded",
            .dataOut])
    else (st, [.postReq "/attendance/checkin", .errMsg])
  | _ => (st, [.postReq "/attendance/checkin", .errMsg])

/-- Employee Check Out button handler (app.py lines 445-460). -/
def employeeCheckout (st : SessionState) (r : ApiResult Unit) :
    SessionState × List Ev :=
  match r with
  | .resp status (some _) =>
    if status = 200 then
      (st, [.postReq "/attendance/checkout", .okMsg "✅ Check-Out recorded",
            .dataOut])
    else (st, [.postReq "/attendance/checkout", .errMsg])
  | _ => (st, [.postReq "/attendance/checkout", .errMsg])

/-- Submit Leave button handler (app.py lines 467-483). -/
def employeeLeaveApply (st : SessionState) (r : ApiResult Unit) :
    SessionState × List Ev :=
  match r with
  | .resp status (some _) =>
    if status = 200 then
      (st, [.postReq "/leave/apply", .okMsg "✅ Leave submitted.", .dataOut])
    else (st, [.postReq "/leave/apply", .errMsg])
  | _ => (st, [.postReq "/leave/apply", .errMsg])

/-- Sidebar navigation (app.py lines 85-104): writes only `ui_view`. -/
def sidebarNav (st : SessionState) (choice : String) : SessionState :=
  if choice = "🏠 Home" then { st with ui_view := "HOME" }
  else if choice = "👨‍💼 HR" then
    { st with ui_view := if st.hr_token.isSome then "HR_DASH" else "HR_AUTH" }
  else if choice = "👷 Employee (QR only)" then
    { st with ui_view := "EMPLOYEE" }
  else if choice = "🔳 QR Display" then { st with ui_view := "QR_DISPLAY" }
  else st

-- ---------------------------------------------------------------------------
-- EMPLOYEE view guard
-- ---------------------------------------------------------------------------

/-- Result of Python `params.get(key, [None])[0]` under the `st.query_params`
API (app.py lines 410-412): an absent key yields the default `[None]`, so
the value `None`; a present key yields its string value, whose `[0]` is its
first character — or raises `IndexError` when the value is the empty
string.  The outer `some` means "no exception". -/
def queryGet0 : Option (List Nat) → Option (Option Nat)
  | none => some none
  | some [] => none
  | some (c :: _) => some (some c)

/-- Outcome of one run of a view: an uncaught exception, or a finished run
with its trace of events. -/
inductive ViewOutcome where
  | crashed
  | finished (evs : List Ev)
deriving DecidableEq

/-- The warning text of the EMPLOYEE view guard (app.py line 415). -/
def accessMsg : String :=
  "⚠️ Access restricted. Please scan the official company QR code to continue."

/-- EMPLOYEE view body (app.py lines 406-424) as a function of the two query
parameters (`none` = absent from the URL).  When either extracted value is
falsy the view warns and `st.stop()`s before any form or request; otherwise
it shows the banner and the credential/location form (the check-in,
check-out and leave buttons live inside this rendered form and are handled
by `employeeCheckin`/`employeeCheckout`/`employeeLeaveApply`). -/
def employeeView (pCid pTok : Option (List Nat)) : ViewOutcome :=
  match queryGet0 pCid, queryGet0 pTok with
  | some cid0, some tok0 =>
    match cid0, tok0 with
    | some c, some t => .finished [.banner c t, .credForm]
    | _, _ => .finished [.warnMsg accessMsg, .stopEv]
  | _, _ => .crashed

-- ---------------------------------------------------------------------------
-- Claim theorems
-- ---------------------------------------------------------------------------

/-- Claim C1, evaluated at its failing input: two consecutive successful
fetches (HTTP 200) returning the same token "abc123", starting from the
initial state, produce two image renders, while one distinct consecutive
token value was observed — the claim (and the code's own comment at app.py
line 522, "Draw QR only if token changed") requires exactly one render,
because `qrcode.make`/`st.image` sit outside the `if changed:` block.  The
last-seen token itself ends up stored once, as expected. -/
theorem C1_render_per_fetch_bug :
    countImages (runQrSeq DEFAULTS 1
        [.resp 200 (some ⟨strBytes "abc123", "d", "u"⟩),
         .resp 200 (some ⟨strBytes "abc123", "d", "u"⟩)]).2 = 2 ∧
    specDistinctConsecutive DEFAULTS.qr_last_token
        [strBytes "abc123", strBytes "abc123"] = 1 ∧
    (runQrSeq DEFAULTS 1
        [.resp 200 (some ⟨strBytes "abc123", "d", "u"⟩),
         .resp 200 (some ⟨strBytes "abc123", "d", "u"⟩)]).1.qr_last_token =
      some (strBytes "abc123") := by
  refine ⟨?_, ?_, ?_⟩ <;> decide

/-- Claim C2, counterexample: the HR QR tab "Fetch Current QR" button
handler — a component other than the QR display render loop — also writes
`qr_last_token` (app.py line 305): from the fresh state, a successful fetch
of token "t" changes it. -/
theorem C2_hr_fetch_writes_counterexample :
    (hrFetchCurrentQr DEFAULTS 1
        (.resp 200 (some ⟨strBytes "t", "d"⟩))).1.qr_last_token ≠
      DEFAULTS.qr_last_token := by
  decide

/-- Claim C2, amended: `qr_last_token` is written only by the QR display
render loop (`qrDisplayView`) and by the HR QR tab "Fetch Current QR"
handler (`hrFetchCurrentQr`); every other handler or view of the program
leaves it unchanged (the EMPLOYEE view does not touch the session state at
all, cf. `employeeView`). -/
theorem C2_no_other_writer (st : SessionState) (email choice : String)
    (ra rl : ApiResult AuthData) (rc rv rce : ApiResult CompanyData)
    (r1 r2 r3 r4 r5 r6 r7 r8 r9 : ApiResult Unit) :
    (hrRegister st email ra).1.qr_last_token = st.qr_last_token ∧
    (hrLogin st email rl).1.qr_last_token = st.qr_last_token ∧
    (hrLogout st).1.qr_last_token = st.qr_last_token ∧
    (hrCreateCompany st rc).1.qr_last_token = st.qr_last_token ∧
    (hrViewCompany st rv).1.qr_last_token = st.qr_last_token ∧
    (hrCreateEmployee st rce r1).1.qr_last_token = st.qr_last_token ∧
    (hrUploadExcel st r2).1.qr_last_token = st.qr_last_token ∧
    (hrListEmployees st r3).1.qr_last_token = st.qr_last_token ∧
    (hrLeaveDecide st r4).1.qr_last_token = st.qr_last_token ∧
    (hrMonitorRefresh st r5).1.qr_last_token = st.qr_last_token ∧
    (hrGenerateReport st r6).1.qr_last_token = st.qr_last_token ∧
    (employeeCheckin st r7).1.qr_last_token = st.qr_last_token ∧
    (employeeCheckout st r8).1.qr_last_token = st.qr_last_token ∧
    (employeeLeaveApply st r9).1.qr_last_token = st.qr_last_token ∧
    (sidebarNav st choice).qr_last_token = st.qr_last_token := by
  unfold hrRegister hrLogin hrLogout hrCreateCompany hrViewCompany
    hrCreateEmployee hrUploadExcel hrListEmployees hrLeaveDecide
    hrMonitorRefresh hrGenerateReport employeeCheckin employeeCheckout
    employeeLeaveApply sidebarNav
  refine ⟨?_, ?_, ?_, ?_, ?_, ?_, ?_, ?_, ?_, ?_, ?_, ?_, ?_, ?_, ?_⟩ <;>
    (repeat first | rfl | split)

/-- Claim C3, counterexample: a successful "Regenerate QR Now" action
issues only the `POST /qr/regenerate`; its trace contains no GET request,
so no token fetch follows the rotation within the same action. -/
theorem C3_regenerate_no_fetch_counterexample :
    (hrRegenerate DEFAULTS (.resp 200 (some ()))).2 =
      [.postReq "/qr/regenerate", .okMsg "✅ QR regenerated."] ∧
    countGets (hrRegenerate DEFAULTS (.resp 200 (some ()))).2 = 0 := by
  constructor <;> rfl

/-- Claim C3, amended: the manual regenerate action only posts
`/qr/regenerate` and reports the outcome; it performs no fetch itself (its
trace starts with the rotation POST and contains no GET request) and leaves
the session state unchanged — the display picks the rotated token up on the
next poll tick of the QR display view or via the separate "Fetch Current
QR" button. -/
theorem C3_regenerate_only_posts (st : SessionState) (r : ApiResult Unit) :
    (hrRegenerate st r).1 = st ∧
    countGets (hrRegenerate st r).2 = 0 ∧
    (hrRegenerate st r).2.head? = some (.postReq "/qr/regenerate") := by
  cases r with
  | noResp => exact ⟨rfl, rfl, rfl⟩
  | resp s b =>
    cases b with
    | none => exact ⟨rfl, rfl, rfl⟩
    | some u =>
      by_cases h : s = 200 <;> simp [hrRegenerate, h, countGets]

/-- Claim C4, counterexample: in a displayed state (last-seen token
"abc123"), a failing fetch (HTTP 500, unparsable body) yields a rerun whose
whole trace is the request and the error message — no image element at all,
so the previously displayed image is not preserved by the rerun,
contradicting the claim that a failed refresh leaves the image displayed. -/
theorem C4_error_blanks_counterexample :
    (qrDisplayView { DEFAULTS with qr_last_token := some (strBytes "abc123") }
        1 (.resp 500 none)).2 = [.getReq "/qr/1/version", .errMsg] ∧
    countImages (qrDisplayView
        { DEFAULTS with qr_last_token := some (strBytes "abc123") }
        1 (.resp 500 none)).2 = 0 := by
  constructor <;> decide

/-- Claim C4, amended: a failing fetch (network error, non-200 status, or
malformed body) surfaces the error indicator and leaves the session state —
in particular the last-seen token — unchanged, and only a successful fetch
renders an image; but the failed rerun renders nothing, so the previously
displayed image is not carried over to it. -/
theorem C4_error_keeps_state_no_render (st : SessionState) (cid : Nat)
    (r : ApiResult QrVersionData) (h : isFetchSuccess r = false) :
    qrDisplayView st cid r =
      (st, [.getReq ("/qr/" ++ toString cid ++ "/version"), .errMsg]) := by
  cases r with
  | noResp => rfl
  | resp status body =>
    cases body with
    | none => rfl
    | some d =>
      simp [isFetchSuccess] at h
      simp [qrDisplayView, h]

/-- Witness for C4 at the concrete failing fetch HTTP 500. -/
theorem C4_error_keeps_state_no_render_witness :
    isFetchSuccess (ApiResult.resp 500 (none : Option QrVersionData)) = false ∧
    qrDisplayView DEFAULTS 1 (.resp 500 none) =
      (DEFAULTS, [.getReq "/qr/1/version", .errMsg]) := by
  constructor
  · rfl
  · rw [C4_error_keeps_state_no_render DEFAULTS 1 (.resp 500 none) rfl]
    decide

/-- Claim C5: deep-link composition is deterministic (a pure function of
its arguments, so two calls with identical arguments are byte-identical),
and for every valid triple — token bytes in range, base URL containing no
`?` — parsing the produced URL's query string back with `parse_qsl` yields
exactly the two original parameters: `company_id` as its decimal digits
(which decode to the original number) and the original token bytes. -/
theorem C5_compose_link_roundtrip (base : List Nat) (cid : Nat)
    (tok : List Nat) (htok : ∀ b ∈ tok, b < 256)
    (hbase : ∀ c ∈ base, c ≠ 63) :
    deepLinkQr base cid tok = deepLinkQr base cid tok ∧
    parseQSL (queryOf (deepLinkQr base cid tok)) =
      [(strBytes "company_id", natDigits cid), (strBytes "qr_token", tok)] ∧
    decimalVal (natDigits cid) = cid := by
  refine ⟨rfl, ?_, decimalVal_natDigits cid⟩
  rw [queryOf_deepLinkQr base cid tok hbase,
    parseQSL_urlencodeParams cid tok htok]

/-- Witness for C5: base "https://ex.com", company 42, token "a b&c%"
(space, separator and percent characters all round-trip). -/
theorem C5_compose_link_roundtrip_witness :
    (∀ b ∈ strBytes "a b&c%", b < 256) ∧
    (∀ c ∈ strBytes "https://ex.com", c ≠ 63) ∧
    parseQSL (queryOf (deepLinkQr (strBytes "https://ex.com") 42
        (strBytes "a b&c%"))) =
      [(strBytes "company_id", natDigits 42),
       (strBytes "qr_token", strBytes "a b&c%")] :=
  ⟨by decide, by decide,
    (C5_compose_link_roundtrip (strBytes "https://ex.com") 42
      (strBytes "a b&c%") (by decide) (by decide)).2.1⟩

/-- Claim C6: with an empty frontend base URL the composed deep link is the
relative URL `/?company_id=...&qr_token=...` — no scheme or host, just the
"/?" separator followed by the urlencoded parameters — and for company 42
and token "t1" it is exactly "/?company_id=42&qr_token=t1". -/
theorem C6_empty_base_relative :
    (∀ (cid : Nat) (tok : List Nat),
      deepLinkQr [] cid tok =
        strBytes "/?company_id=" ++ natDigits cid ++
          strBytes "&qr_token=" ++ quotePlusB tok) ∧
    deepLinkQr [] 42 (strBytes "t1") =
      strBytes "/?company_id=42&qr_token=t1" := by
  constructor
  · intro cid tok
    have h1 : strBytes "/?company_id=" =
        47 :: 63 :: (strBytes "company_id" ++ [61]) := by decide
    have h2 : strBytes "&qr_token=" = 38 :: (strBytes "qr_token" ++ [61]) := by
      decide
    rw [show deepLinkQr [] cid tok = 47 :: 63 :: urlencodeParams cid tok
        from rfl, urlencodeParams_eq, h1, h2]
    simp [List.append_assoc]
  · simp [deepLinkQr, urlencodeParams, natDigits, quotePlusB, encByte,
      isSafeByte, strBytes, hexDig]

/-- Claim C7: a fetch whose HTTP status is not 200 never updates the
last-seen token and never renders (redraws) a QR image, whatever the
current state. -/
theorem C7_non200_no_update (st : SessionState) (cid status : Nat)
    (body : Option QrVersionData) (h : status ≠ 200) :
    (qrDisplayView st cid (.resp status body)).1 = st ∧
    countImages (qrDisplayView st cid (.resp status body)).2 = 0 := by
  cases body with
  | none => exact ⟨rfl, rfl⟩
  | some d => simp [qrDisplayView, h, countImages]

/-- Witness for C7 at HTTP 401 with a well-formed body. -/
theorem C7_non200_no_update_witness :
    (401 ≠ 200) ∧
    (qrDisplayView DEFAULTS 1
        (.resp 401 (some ⟨strBytes "abc123", "d", "u"⟩))).1 = DEFAULTS :=
  ⟨by decide,
    (C7_non200_no_update DEFAULTS 1 401
      (some ⟨strBytes "abc123", "d", "u"⟩) (by decide)).1⟩

/-- Claim C8: from the IDLE state (fresh `DEFAULTS`, `qr_last_token =
None`), a first successful fetch stores the returned token as last-seen and
renders the QR image (the render is indeed unconditional), i.e. the view
moves to DISPLAYED; and with company 1 and token "abc123" (with the default
empty base URL) the rendered link is "/?company_id=1&qr_token=abc123". -/
theorem C8_first_fetch_renders :
    (∀ (base : List Nat) (cid : Nat) (t : List Nat) (td ua : String),
      qrDisplayView { DEFAULTS with frontend_base_url := base } cid
          (.resp 200 (some ⟨t, td, ua⟩)) =
        ({ DEFAULTS with frontend_base_url := base,
                         qr_last_token := some t },
         [.getReq ("/qr/" ++ toString cid ++ "/version"),
          .image (deepLinkQr base cid t) ("Token Date: " ++ td),
          .markdown (deepLinkQr base cid t),
          .capt ("Last backend update: " ++ ua)])) ∧
    deepLinkQr [] 1 (strBytes "abc123") =
      strBytes "/?company_id=1&qr_token=abc123" := by
  constructor
  · intro base cid t td ua
    simp [qrDisplayView, DEFAULTS]
  · simp [deepLinkQr, urlencodeParams, natDigits, quotePlusB, encByte,
      isSafeByte, strBytes, hexDig]

/-- Claim C9: both deep-link compositions normalise trailing slashes of a
non-empty base URL — appending any number of trailing `/` characters
yields a byte-identical deep link, because the base is right-stripped of
`/` before the "/?" separator is appended. -/
theorem C9_trailing_slash_normalised (b : List Nat) (k cid : Nat)
    (tok : List Nat) (hb : b ≠ []) :
    deepLinkQr (b ++ List.replicate k 47) cid tok = deepLinkQr b cid tok ∧
    deepLinkHr (b ++ List.replicate k 47) cid tok = deepLinkHr b cid tok := by
  have hne : b ++ List.replicate k 47 ≠ [] := by simp [hb]
  constructor
  · unfold deepLinkQr
    simp only [if_neg hb, if_neg hne, rstripSlash_append_slashes]
  · unfold deepLinkHr
    simp only [if_neg hb, if_neg hne, rstripSlash_append_slashes]

/-- Witness for C9: base "https://x" with two extra trailing slashes. -/
theorem C9_trailing_slash_normalised_witness :
    strBytes "https://x" ≠ [] ∧
    deepLinkQr (strBytes "https://x" ++ List.replicate 2 47) 1
        (strBytes "t") =
      deepLinkQr (strBytes "https://x") 1 (strBytes "t") :=
  ⟨by decide,
    (C9_trailing_slash_normalised (strBytes "https://x") 2 1 (strBytes "t")
      (by decide)).1⟩

/-- Claim C10, counterexample: with `company_id` absent and `qr_token`
present but with an empty value, the run does not reach the
access-restricted warning — evaluating `params.get("qr_token", [None])[0]`
raises `IndexError` on the empty string, so the view crashes instead of
warning and stopping. -/
theorem C10_empty_param_counterexample :
    employeeView none (some []) = ViewOutcome.crashed ∧
    employeeView none (some []) ≠
      ViewOutcome.finished [.warnMsg accessMsg, .stopEv] := by
  constructor
  · rfl
  · decide

/-- Claim C10, amended: if either query parameter is absent — and no
present parameter has an empty value — the EMPLOYEE view renders exactly
the access-restricted warning and stops: no banner, no credential form and
no backend request.  If a present parameter's value is empty the run
instead aborts with an exception, likewise producing no form or request.
The credential form (and with it check-in, check-out and leave submission)
is reachable only when both parameters are present. -/
theorem C10_guard (pCid pTok : Option (List Nat)) :
    ((pCid = none ∨ pTok = none) → pCid ≠ some [] → pTok ≠ some [] →
      employeeView pCid pTok = .finished [.warnMsg accessMsg, .stopEv]) ∧
    ((pCid = some [] ∨ pTok = some []) →
      employeeView pCid pTok = .crashed) ∧
    (∀ evs, employeeView pCid pTok = .finished evs → Ev.credForm ∈ evs →
      pCid ≠ none ∧ pTok ≠ none) := by
  rcases pCid with _ | ⟨_ | ⟨c, cs⟩⟩ <;> rcases pTok with _ | ⟨_ | ⟨t, ts⟩⟩ <;>
    refine ⟨?_, ?_, ?_⟩ <;>
    simp [employeeView, queryGet0]

/-- Witness for C10: `company_id` absent, `qr_token` present and
non-empty. -/
theorem C10_guard_witness :
    employeeView none (some (strBytes "tok")) =
      ViewOutcome.finished [.warnMsg accessMsg, .stopEv] :=
  (C10_guard none (some (strBytes "tok"))).1 (Or.inl rfl) (by decide)
    (by decide)
